import Mathlib

/-!
Verification of the betting-line reconciliation engine of
`src/database_updater/betting.py`.

The development shallowly embeds the pure logic of the module:

* `BettingRow` models one row of the `Betting` table (schema lines 208-266).
* `BettingData` models the input dicts accepted by `save_betting_data`
  (ESPN format, Covers format, placeholder format).
* `buildFields` / `applyFields` / `insertRow` / `saveOne` / `save_betting_data`
  model the merge/upsert loop of `save_betting_data` (lines 709-887):
  an UPDATE sets `updated_at` directly, `lines_finalized` via
  `MAX(lines_finalized, ?)`, and every other column via `COALESCE(?, column)`;
  an INSERT writes the supplied fields and leaves the rest at the SQL
  defaults (NULL, `lines_finalized` defaulting to 0).
* `should_fetch_betting` models the tier selector (lines 583-630); time is
  embedded as rational seconds, `days_away = delta.total_seconds() / 86400`.
* `_should_use_cache` models the cache gate (lines 1099-1145); the parsed
  `updated_at` timestamp is embedded as rational epoch seconds, with
  explicit constructors for a missing (falsy) or unparseable value.
* `_extract_espn_lines` / `fetch_espn_betting_data` /
  `build_espn_betting_result` model the construction of an ESPN update
  (lines 451-514, 429-444, 684-706); `build_covers_betting_data` models the
  construction of a Covers update inside `_fetch_covers_batch`
  (lines 1366-1375).
* `_filter_failed_covers_dates` models the attempt-ledger filter
  (lines 90-167); SQLite datetime strings compare chronologically at second
  granularity, embedded as integer seconds.

Option values model SQL NULL / Python None; for the COALESCE-treated columns
a dict key that is absent and a key present with value None are
interchangeable in both the UPDATE and the INSERT path, so both are
embedded as `none`.
-/

/-- COALESCE of the incoming value with the stored one, as in
`field = COALESCE(?, field)`: a non-null incoming value wins, a null
incoming value keeps the stored one. -/
def coalesce {α : Type} (v old : Option α) : Option α :=
  match v with
  | some x => some x
  | none => old

theorem coalesce_none {α : Type} (old : Option α) : coalesce none old = old := rfl

theorem coalesce_of_none {α : Type} (v old : Option α) (h : v = none) :
    coalesce v old = old := by
  subst h; rfl

theorem coalesce_isSome {α : Type} (v old : Option α) (h : old.isSome = true) :
    (coalesce v old).isSome = true := by
  cases v with
  | some x => rfl
  | none => exact h

theorem coalesce_idem {α : Type} (v old : Option α) :
    coalesce v (coalesce v old) = coalesce v old := by
  cases v <;> rfl

theorem coalesce_self {α : Type} (v : Option α) : coalesce v v = v := by
  cases v <;> rfl

/-- One row of the `Betting` table (schema at lines 208-266 of
`betting.py`).  REAL columns are embedded as `Option Rat`, INTEGER odds
columns as `Option Int`; `lines_finalized` is NOT NULL with default 0. -/
structure BettingRow where
  game_id : String
  espn_event_id : Option String := none
  espn_opening_spread : Option Rat := none
  espn_opening_spread_home_odds : Option Int := none
  espn_opening_spread_away_odds : Option Int := none
  espn_opening_total : Option Rat := none
  espn_opening_over_odds : Option Int := none
  espn_opening_under_odds : Option Int := none
  espn_opening_ml_home : Option Int := none
  espn_opening_ml_away : Option Int := none
  espn_current_spread : Option Rat := none
  espn_current_spread_home_odds : Option Int := none
  espn_current_spread_away_odds : Option Int := none
  espn_current_total : Option Rat := none
  espn_current_over_odds : Option Int := none
  espn_current_under_odds : Option Int := none
  espn_current_ml_home : Option Int := none
  espn_current_ml_away : Option Int := none
  espn_closing_spread : Option Rat := none
  espn_closing_spread_home_odds : Option Int := none
  espn_closing_spread_away_odds : Option Int := none
  espn_closing_total : Option Rat := none
  espn_closing_over_odds : Option Int := none
  espn_closing_under_odds : Option Int := none
  espn_closing_ml_home : Option Int := none
  espn_closing_ml_away : Option Int := none
  covers_closing_spread : Option Rat := none
  covers_closing_total : Option Rat := none
  spread_result : Option String := none
  ou_result : Option String := none
  lines_finalized : Int := 0
  created_at : String
  updated_at : String
deriving DecidableEq

/-- One `opening` or `current_or_closing` dict of an ESPN update, as built
by `_extract_espn_lines`. -/
structure LineGroup where
  spread : Option Rat := none
  spread_home_odds : Option Int := none
  spread_away_odds : Option Int := none
  total : Option Rat := none
  over_odds : Option Int := none
  under_odds : Option Int := none
  ml_home : Option Int := none
  ml_away : Option Int := none
deriving DecidableEq

/-- An ESPN-format dict accepted by `save_betting_data` (recognized by the
presence of the `espn_event_id` key). -/
structure EspnData where
  game_id : String
  espn_event_id : String
  game_status : Int
  opening : Option LineGroup := none
  current_or_closing : Option LineGroup := none
  lines_finalized : Option Int := none
  spread_result : Option String := none
  ou_result : Option String := none
deriving DecidableEq

/-- A Covers-format dict accepted by `save_betting_data` (recognized by the
presence of a `covers_closing_spread` or `covers_closing_total` key). -/
structure CoversData where
  game_id : String
  covers_closing_spread : Option Rat := none
  covers_closing_total : Option Rat := none
  spread_result : Option String := none
  ou_result : Option String := none
  lines_finalized : Option Int := none
deriving DecidableEq

/-- A placeholder dict (no data found, only a timestamp): every dict that is
neither ESPN nor Covers format falls into this case in the source. -/
structure PlaceholderData where
  game_id : String
  updated_at : Option String := none
deriving DecidableEq

/-- The three input formats of `save_betting_data`.  In the source the
discrimination is exhaustive: `is_placeholder = not is_espn and not
is_covers`, so the `Unknown data format` branch is unreachable. -/
inductive BettingData where
  | espn : EspnData → BettingData
  | covers : CoversData → BettingData
  | placeholder : PlaceholderData → BettingData
deriving DecidableEq

def gameIdOf : BettingData → String
  | .espn e => e.game_id
  | .covers c => c.game_id
  | .placeholder p => p.game_id

/-- The `fields` dict built by `save_betting_data` for one input entry: the
COALESCE-treated column assignments (where `none` means key absent or
value null), the MAX-treated `lines_finalized` (where `none` means the key
is absent, as for placeholders), and the directly assigned `updated_at`. -/
structure MergeFields where
  espn_event_id : Option String := none
  espn_opening_spread : Option Rat := none
  espn_opening_spread_home_odds : Option Int := none
  espn_opening_spread_away_odds : Option Int := none
  espn_opening_total : Option Rat := none
  espn_opening_over_odds : Option Int := none
  espn_opening_under_odds : Option Int := none
  espn_opening_ml_home : Option Int := none
  espn_opening_ml_away : Option Int := none
  espn_current_spread : Option Rat := none
  espn_current_spread_home_odds : Option Int := none
  espn_current_spread_away_odds : Option Int := none
  espn_current_total : Option Rat := none
  espn_current_over_odds : Option Int := none
  espn_current_under_odds : Option Int := none
  espn_current_ml_home : Option Int := none
  espn_current_ml_away : Option Int := none
  espn_closing_spread : Option Rat := none
  espn_closing_spread_home_odds : Option Int := none
  espn_closing_spread_away_odds : Option Int := none
  espn_closing_total : Option Rat := none
  espn_closing_over_odds : Option Int := none
  espn_closing_under_odds : Option Int := none
  espn_closing_ml_home : Option Int := none
  espn_closing_ml_away : Option Int := none
  covers_closing_spread : Option Rat := none
  covers_closing_total : Option Rat := none
  spread_result : Option String := none
  ou_result : Option String := none
  lines_finalized : Option Int := none
  updated_at : String
deriving DecidableEq

/-- The `is_completed = game_status == 3` test of `save_betting_data`
(line 767). -/
def isCompleted (e : EspnData) : Bool :=
  e.game_status = 3

/-- Value of one opening-column assignment of the ESPN branch of
`save_betting_data`: `opening.get(key)` when the `opening` key is present,
absent otherwise. -/
def espnOpeningField {α : Type} (e : EspnData) (f : LineGroup → Option α) : Option α :=
  e.opening.bind f

/-- Value of one current-column assignment of the ESPN branch of
`save_betting_data`: `current_or_closing.get(key)` when the group is
present and the game is not completed, absent otherwise. -/
def espnCurrentField {α : Type} (e : EspnData) (f : LineGroup → Option α) : Option α :=
  if isCompleted e then none else e.current_or_closing.bind f

/-- Value of one closing-column assignment of the ESPN branch of
`save_betting_data`: `current_or_closing.get(key)` when the group is
present and the game is completed, absent otherwise. -/
def espnClosingField {α : Type} (e : EspnData) (f : LineGroup → Option α) : Option α :=
  if isCompleted e then e.current_or_closing.bind f else none

/-- Field construction of `save_betting_data` (lines 764-844): ESPN data
routes `opening` to the opening columns and `current_or_closing` to the
closing columns when `game_status == 3` (Final) else to the current
columns; Covers data always targets the covers closing columns; a
placeholder only carries `updated_at` (`data.get("updated_at", now)`). -/
def buildFields (now : String) : BettingData → MergeFields
  | .espn e =>
    { espn_event_id := some e.espn_event_id
      espn_opening_spread := espnOpeningField e (fun g => g.spread)
      espn_opening_spread_home_odds := espnOpeningField e (fun g => g.spread_home_odds)
      espn_opening_spread_away_odds := espnOpeningField e (fun g => g.spread_away_odds)
      espn_opening_total := espnOpeningField e (fun g => g.total)
      espn_opening_over_odds := espnOpeningField e (fun g => g.over_odds)
      espn_opening_under_odds := espnOpeningField e (fun g => g.under_odds)
      espn_opening_ml_home := espnOpeningField e (fun g => g.ml_home)
      espn_opening_ml_away := espnOpeningField e (fun g => g.ml_away)
      espn_current_spread := espnCurrentField e (fun g => g.spread)
      espn_current_spread_home_odds := espnCurrentField e (fun g => g.spread_home_odds)
      espn_current_spread_away_odds := espnCurrentField e (fun g => g.spread_away_odds)
      espn_current_total := espnCurrentField e (fun g => g.total)
      espn_current_over_odds := espnCurrentField e (fun g => g.over_odds)
      espn_current_under_odds := espnCurrentField e (fun g => g.under_odds)
      espn_current_ml_home := espnCurrentField e (fun g => g.ml_home)
      espn_current_ml_away := espnCurrentField e (fun g => g.ml_away)
      espn_closing_spread := espnClosingField e (fun g => g.spread)
      espn_closing_spread_home_odds := espnClosingField e (fun g => g.spread_home_odds)
      espn_closing_spread_away_odds := espnClosingField e (fun g => g.spread_away_odds)
      espn_closing_total := espnClosingField e (fun g => g.total)
      espn_closing_over_odds := espnClosingField e (fun g => g.over_odds)
      espn_closing_under_odds := espnClosingField e (fun g => g.under_odds)
      espn_closing_ml_home := espnClosingField e (fun g => g.ml_home)
      espn_closing_ml_away := espnClosingField e (fun g => g.ml_away)
      lines_finalized := some (e.lines_finalized.getD 0)
      spread_result := e.spread_result
      ou_result := e.ou_result
      updated_at := now }
  | .covers c =>
    { covers_closing_spread := c.covers_closing_spread
      covers_closing_total := c.covers_closing_total
      spread_result := c.spread_result
      ou_result := c.ou_result
      lines_finalized := some (c.lines_finalized.getD 1)
      updated_at := now }
  | .placeholder p =>
    { updated_at := p.updated_at.getD now }

/-- UPDATE path of `save_betting_data` (lines 846-864): `updated_at` is
assigned directly, `lines_finalized` via `MAX(lines_finalized, ?)` when the
key is present, every other supplied column via `COALESCE(?, column)`;
columns whose key is absent are untouched. -/
def applyFields (F : MergeFields) (r : BettingRow) : BettingRow :=
  { r with
    espn_event_id := coalesce F.espn_event_id r.espn_event_id
    espn_opening_spread := coalesce F.espn_opening_spread r.espn_opening_spread
    espn_opening_spread_home_odds :=
      coalesce F.espn_opening_spread_home_odds r.espn_opening_spread_home_odds
    espn_opening_spread_away_odds :=
      coalesce F.espn_opening_spread_away_odds r.espn_opening_spread_away_odds
    espn_opening_total := coalesce F.espn_opening_total r.espn_opening_total
    espn_opening_over_odds := coalesce F.espn_opening_over_odds r.espn_opening_over_odds
    espn_opening_under_odds := coalesce F.espn_opening_under_odds r.espn_opening_under_odds
    espn_opening_ml_home := coalesce F.espn_opening_ml_home r.espn_opening_ml_home
    espn_opening_ml_away := coalesce F.espn_opening_ml_away r.espn_opening_ml_away
    espn_current_spread := coalesce F.espn_current_spread r.espn_current_spread
    espn_current_spread_home_odds :=
      coalesce F.espn_current_spread_home_odds r.espn_current_spread_home_odds
    espn_current_spread_away_odds :=
      coalesce F.espn_current_spread_away_odds r.espn_current_spread_away_odds
    espn_current_total := coalesce F.espn_current_total r.espn_current_total
    espn_current_over_odds := coalesce F.espn_current_over_odds r.espn_current_over_odds
    espn_current_under_odds := coalesce F.espn_current_under_odds r.espn_current_under_odds
    espn_current_ml_home := coalesce F.espn_current_ml_home r.espn_current_ml_home
    espn_current_ml_away := coalesce F.espn_current_ml_away r.espn_current_ml_away
    espn_closing_spread := coalesce F.espn_closing_spread r.espn_closing_spread
    espn_closing_spread_home_odds :=
      coalesce F.espn_closing_spread_home_odds r.espn_closing_spread_home_odds
    espn_closing_spread_away_odds :=
      coalesce F.espn_closing_spread_away_odds r.espn_closing_spread_away_odds
    espn_closing_total := coalesce F.espn_closing_total r.espn_closing_total
    espn_closing_over_odds := coalesce F.espn_closing_over_odds r.espn_closing_over_odds
    espn_closing_under_odds := coalesce F.espn_closing_under_odds r.espn_closing_under_odds
    espn_closing_ml_home := coalesce F.espn_closing_ml_home r.espn_closing_ml_home
    espn_closing_ml_away := coalesce F.espn_closing_ml_away r.espn_closing_ml_away
    covers_closing_spread := coalesce F.covers_closing_spread r.covers_closing_spread
    covers_closing_total := coalesce F.covers_closing_total r.covers_closing_total
    spread_result := coalesce F.spread_result r.spread_result
    ou_result := coalesce F.ou_result r.ou_result
    lines_finalized :=
      match F.lines_finalized with
      | some v => max r.lines_finalized v
      | none => r.lines_finalized
    updated_at := F.updated_at }

/-- INSERT path of `save_betting_data` (lines 866-878): the supplied columns
are written as given, the remaining columns take the SQL defaults
(NULL, and 0 for `lines_finalized`); `created_at` is set to `now`. -/
def insertRow (now gid : String) (F : MergeFields) : BettingRow :=
  { game_id := gid
    espn_event_id := F.espn_event_id
    espn_opening_spread := F.espn_opening_spread
    espn_opening_spread_home_odds := F.espn_opening_spread_home_odds
    espn_opening_spread_away_odds := F.espn_opening_spread_away_odds
    espn_opening_total := F.espn_opening_total
    espn_opening_over_odds := F.espn_opening_over_odds
    espn_opening_under_odds := F.espn_opening_under_odds
    espn_opening_ml_home := F.espn_opening_ml_home
    espn_opening_ml_away := F.espn_opening_ml_away
    espn_current_spread := F.espn_current_spread
    espn_current_spread_home_odds := F.espn_current_spread_home_odds
    espn_current_spread_away_odds := F.espn_current_spread_away_odds
    espn_current_total := F.espn_current_total
    espn_current_over_odds := F.espn_current_over_odds
    espn_current_under_odds := F.espn_current_under_odds
    espn_current_ml_home := F.espn_current_ml_home
    espn_current_ml_away := F.espn_current_ml_away
    espn_closing_spread := F.espn_closing_spread
    espn_closing_spread_home_odds := F.espn_closing_spread_home_odds
    espn_closing_spread_away_odds := F.espn_closing_spread_away_odds
    espn_closing_total := F.espn_closing_total
    espn_closing_over_odds := F.espn_closing_over_odds
    espn_closing_under_odds := F.espn_closing_under_odds
    espn_closing_ml_home := F.espn_closing_ml_home
    espn_closing_ml_away := F.espn_closing_ml_away
    covers_closing_spread := F.covers_closing_spread
    covers_closing_total := F.covers_closing_total
    spread_result := F.spread_result
    ou_result := F.ou_result
    lines_finalized := F.lines_finalized.getD 0
    created_at := now
    updated_at := F.updated_at }

/-- The `Betting` table, keyed by `game_id`. -/
abbrev BetStore := String → Option BettingRow

def emptyStore : BetStore := fun _ => none

def storeSet (s : BetStore) (gid : String) (row : BettingRow) : BetStore :=
  fun g => if g = gid then some row else s g

/-- One iteration of the `save_betting_data` loop: look up the existing row
for the entry's `game_id`, then UPDATE it or INSERT a fresh row. -/
def saveOne (now : String) (s : BetStore) (d : BettingData) : BetStore :=
  let gid := gameIdOf d
  let F := buildFields now d
  match s gid with
  | some r => storeSet s gid (applyFields F r)
  | none => storeSet s gid (insertRow now gid F)

/-- `save_betting_data` (lines 709-887): a single `now` timestamp is taken
for the whole call, each entry is upserted in order, and the returned count
is incremented for every processed entry; an empty list returns 0. -/
def save_betting_data (now : String) (s : BetStore) (l : List BettingData) :
    BetStore × Nat :=
  l.foldl (fun acc d => (saveOne now acc.1 d, acc.2 + 1)) (s, 0)

/-- A sequence of `save_betting_data` calls, each with its own call-time
timestamp and batch. -/
def applyBatches (bs : List (String × List BettingData)) (s : BetStore) : BetStore :=
  bs.foldl (fun st b => (save_betting_data b.1 st b.2).1) s

/-- Fetching threshold `FUTURE_CUTOFF_DAYS = 2` (line 82). -/
def FUTURE_CUTOFF_DAYS : Int := 2

/-- Fetching threshold `ESPN_LOOKBACK_DAYS = 7` (line 83). -/
def ESPN_LOOKBACK_DAYS : Int := 7

/-- Caching threshold `CACHE_HOURS = 1` (line 87). -/
def CACHE_HOURS : Int := 1

/-- `should_fetch_betting` (lines 583-630).  `game_datetime` and `now` are
epoch seconds; `days_away = delta.total_seconds() / 86400`, and the status
codes are the ones all in-repo callers pass: 1 = Scheduled, 2 = In
Progress, 3 = Final. -/
def should_fetch_betting (game_datetime : Rat) (game_status : Int) (now : Rat) :
    Bool × String :=
  let days_away : Rat := (game_datetime - now) / 86400
  if days_away > (FUTURE_CUTOFF_DAYS : Rat) then
    (false, "too_far_future")
  else if game_status = 3 ∧ days_away < -(ESPN_LOOKBACK_DAYS : Rat) then
    (false, "too_old")
  else if game_status = 2 ∨ game_status = 3 ∨ days_away ≥ -(ESPN_LOOKBACK_DAYS : Rat) then
    (true, "espn")
  else
    (false, "skip")

/-- Event status at the specification level. -/
inductive GameStatus where
  | scheduled
  | live
  | completed
deriving DecidableEq

/-- Integer status code used by the database and passed by every caller of
`should_fetch_betting`. -/
def statusCode : GameStatus → Int
  | .scheduled => 1
  | .live => 2
  | .completed => 3

/-- Tier-selector policy, written from the words of claim C6: the rules are
evaluated in order, with the time comparisons stated directly on
`kickoff - now` in days. -/
def tier_selector_spec (kickoff now : Rat) (st : GameStatus) : Bool × String :=
  if kickoff - now > 2 * 86400 then
    (false, "too_far_future")
  else if st = .completed ∧ kickoff - now < -(7 * 86400 : Rat) then
    (false, "too_old")
  else if st = .live ∨ st = .completed ∨ kickoff - now ≥ -(7 * 86400 : Rat) then
    (true, "espn")
  else
    (false, "skip")

/-- The `updated_at` value of a stored row, as seen by `_should_use_cache`:
either falsy (NULL or empty), a string `datetime.fromisoformat` rejects, or
a parsed timestamp in epoch seconds. -/
inductive StoredTimestamp where
  | missing
  | unparseable
  | parsed : Rat → StoredTimestamp
deriving DecidableEq

/-- The stored state `_should_use_cache` can observe for one game: the
columns of the `Betting` row that are relevant to the cache decision.  The
function body only ever reads `updated_at`, `lines_finalized`,
`espn_closing_spread` and `covers_closing_spread` (the query at lines
1166-1174 projects exactly those columns plus `game_id`). -/
structure CacheRecord where
  updated_at : StoredTimestamp
  lines_finalized : Int
  espn_closing_spread : Option Rat := none
  espn_closing_spread_home_odds : Option Int := none
  espn_closing_spread_away_odds : Option Int := none
  espn_closing_total : Option Rat := none
  espn_closing_over_odds : Option Int := none
  espn_closing_under_odds : Option Int := none
  espn_closing_ml_home : Option Int := none
  espn_closing_ml_away : Option Int := none
  covers_closing_spread : Option Rat := none
  covers_closing_total : Option Rat := none
deriving DecidableEq

/-- `_should_use_cache` (lines 1099-1145): no row or no/unparseable
`updated_at` means refetch; a finalized row with an ESPN or Covers closing
spread is cached forever; otherwise the row is cached while
`(now - updated_at) / 3600 < CACHE_HOURS`. -/
def _should_use_cache (existing : Option CacheRecord) (game_status : Int) (now : Rat) :
    Bool :=
  match existing with
  | none => false
  | some r =>
    match r.updated_at with
    | .missing => false
    | .unparseable => false
    | .parsed t =>
      let has_closing := r.espn_closing_spread.isSome || r.covers_closing_spread.isSome
      if r.lines_finalized = 1 && has_closing then
        true
      else
        decide ((now - t) / 3600 < (CACHE_HOURS : Rat))

/-- Cache-gate rules written from the words of claim C5, amended: refetch
when there is no record or its timestamp is absent or unparseable; cache
forever when `lines_finalized = 1` and one of the two closing spreads is
non-null; otherwise cache exactly when less than one hour (3600 seconds)
has elapsed since `updated_at`.  (The original claim requires permanent
caching for any non-null closing-phase field; the code only consults the
two closing spreads.) -/
def cache_gate_spec (existing : Option CacheRecord) (now : Rat) : Bool :=
  match existing with
  | none => false
  | some r =>
    match r.updated_at with
    | .missing => false
    | .unparseable => false
    | .parsed t =>
      if r.lines_finalized = 1 ∧ (r.espn_closing_spread.isSome ∨ r.covers_closing_spread.isSome)
      then true
      else decide (now - t < 3600)

/-- True when any closing-phase column of the record is non-null (the
notion the original claim C5 uses). -/
def cacheHasClosingField (r : CacheRecord) : Bool :=
  r.espn_closing_spread.isSome || r.espn_closing_spread_home_odds.isSome ||
  r.espn_closing_spread_away_odds.isSome || r.espn_closing_total.isSome ||
  r.espn_closing_over_odds.isSome || r.espn_closing_under_odds.isSome ||
  r.espn_closing_ml_home.isSome || r.espn_closing_ml_away.isSome ||
  r.covers_closing_spread.isSome || r.covers_closing_total.isSome

/-- `int(float(x))` of Python: truncation toward zero. -/
def truncToZero (q : Rat) : Int :=
  if q < 0 then Int.ceil q else Int.floor q

/-- A raw `odds` value as `_convert_odds` receives it from the ESPN JSON:
either absent/None, or present but not convertible to a number (e.g. the
string `EVEN`, the ValueError/TypeError path of lines 568-575), or a
numeric value. -/
inductive RawOdds where
  | missing
  | unparseable
  | num : Rat → RawOdds
deriving DecidableEq

/-- Python's `odds_value is not None` test: true for a present value even
when it is unparseable. -/
def RawOdds.isPresent : RawOdds → Bool
  | .missing => false
  | .unparseable => true
  | .num _ => true

/-- `_convert_odds` (lines 568-575): None stays None, an unparseable value
becomes None via the caught ValueError/TypeError, a numeric value is
truncated toward zero by `int(float(x))`. -/
def _convert_odds : RawOdds → Option Int
  | .missing => none
  | .unparseable => none
  | .num q => some (truncToZero q)

/-- Leaves of one `open` or `close` slice of an ESPN pickcenter odds
object, as read by `_extract_espn_lines`.  A `line` leaf is `none` for a
missing key or null value (an unparseable line raises out of the whole
fetch, so it never reaches a group); an `odds` leaf is a `RawOdds`, since
a present-but-unparseable odds value is distinct from an absent one. -/
structure ExtractInput where
  home_spread_line : Option Rat := none
  home_spread_odds : RawOdds := .missing
  away_spread_odds : RawOdds := .missing
  over_line : Option Rat := none
  over_odds : RawOdds := .missing
  under_odds : RawOdds := .missing
  home_ml_odds : RawOdds := .missing
  away_ml_odds : RawOdds := .missing
deriving DecidableEq

/-- Whether `_extract_espn_lines` adds at least one key to its `lines`
dict: the spread block requires a home spread line, the total block an
over line, and each moneyline key requires its raw odds value to be
present — even an unparseable one, whose converted value is then None. -/
def extractHasAny (inp : ExtractInput) : Bool :=
  inp.home_spread_line.isSome || inp.over_line.isSome ||
  inp.home_ml_odds.isPresent || inp.away_ml_odds.isPresent

/-- `_extract_espn_lines` (lines 451-514): builds the dict of lines for one
line type; returns `None` when no key was added. -/
def _extract_espn_lines (inp : ExtractInput) : Option LineGroup :=
  if extractHasAny inp then
    some
      { spread := inp.home_spread_line
        spread_home_odds :=
          if inp.home_spread_line.isSome then _convert_odds inp.home_spread_odds else none
        spread_away_odds :=
          if inp.home_spread_line.isSome then _convert_odds inp.away_spread_odds else none
        total := inp.over_line
        over_odds := if inp.over_line.isSome then _convert_odds inp.over_odds else none
        under_odds := if inp.over_line.isSome then _convert_odds inp.under_odds else none
        ml_home := _convert_odds inp.home_ml_odds
        ml_away := _convert_odds inp.away_ml_odds }
  else
    none

/-- The dict returned by `fetch_espn_betting_data` when the request and the
pickcenter lookup succeed. -/
structure EspnLines where
  opening : Option LineGroup := none
  current_or_closing : Option LineGroup := none
deriving DecidableEq

/-- Result assembly of `fetch_espn_betting_data` (lines 429-444): the
`opening` key comes from the `open` slice, the `current_or_closing` key
from the `close` slice, and an empty result dict becomes `None`. -/
def fetch_espn_betting_data (openInp closeInp : ExtractInput) : Option EspnLines :=
  let o := _extract_espn_lines openInp
  let c := _extract_espn_lines closeInp
  if o.isSome || c.isSome then some { opening := o, current_or_closing := c } else none

/-- Result construction of `fetch_betting_for_game` (lines 684-706) once
ESPN returned `espn_lines`: the update carries the game status, copies the
two line groups, and sets `lines_finalized = 1` exactly when the game
status is 3 (Final) and a `current_or_closing` group is present. -/
def build_espn_betting_result (gid eid : String) (game_status : Int) (el : EspnLines) :
    EspnData :=
  { game_id := gid
    espn_event_id := eid
    game_status := game_status
    opening := el.opening
    current_or_closing := el.current_or_closing
    lines_finalized :=
      some (if game_status = 3 ∧ el.current_or_closing.isSome then 1 else 0)
    spread_result := none
    ou_result := none }

/-- Construction of one Covers update inside `_fetch_covers_batch`
(lines 1366-1375): closing spread and total are copied from the scraped
game and `lines_finalized` is 1 exactly when the spread is non-null. -/
def build_covers_betting_data (gid : String) (spread total : Option Rat)
    (spreadRes ouRes : Option String) : CoversData :=
  { game_id := gid
    covers_closing_spread := spread
    covers_closing_total := total
    spread_result := spreadRes
    ou_result := ouRes
    lines_finalized := some (if spread.isSome then 1 else 0) }

/-- The `CoversAttempts` table: per date string, the last attempt's match
count and its time in epoch seconds (SQLite datetime strings compare
chronologically at second granularity). -/
abbrev CoversLedger := String → Option (Int × Int)

/-- `_filter_failed_covers_dates` (lines 90-167): a date with a recorded
attempt is skipped when its last attempt had a positive match count less
than 24 hours ago, or a zero match count less than 6 hours ago; every
other date is kept, in order. -/
def _filter_failed_covers_dates (now : Int) (ledger : CoversLedger)
    (dates : List String) : List String :=
  dates.filter (fun date_str =>
    match ledger date_str with
    | none => true
    | some (match_count, last_attempt) =>
      if match_count > 0 then
        if last_attempt > now - 24 * 3600 then false else true
      else if match_count = 0 then
        if last_attempt > now - 6 * 3600 then false else true
      else
        true)

/-- Retention rule written from the words of claim C9, amended: keep a date
iff it has no recorded attempt, or its last attempt had zero matches at
least 6 hours ago, or at least one match at least 24 hours ago. -/
def covers_date_retained (now : Int) (ledger : CoversLedger) (d : String) : Bool :=
  match ledger d with
  | none => true
  | some (mc, t) =>
    (decide (mc = 0) && decide (6 * 3600 ≤ now - t)) ||
    (decide (1 ≤ mc) && decide (24 * 3600 ≤ now - t))

/-- Retention rule written from the words of claim C9 as stated: `more than
6 hours ago` and `more than 24 hours ago`, strictly. -/
def covers_date_retained_strict (now : Int) (ledger : CoversLedger) (d : String) : Bool :=
  match ledger d with
  | none => true
  | some (mc, t) =>
    (decide (mc = 0) && decide (6 * 3600 < now - t)) ||
    (decide (1 ≤ mc) && decide (24 * 3600 < now - t))

theorem saveOne_eval (now : String) (s : BetStore) (d : BettingData) (g : String) :
    saveOne now s d g =
      if g = gameIdOf d then
        some (match s (gameIdOf d) with
              | some r => applyFields (buildFields now d) r
              | none => insertRow now (gameIdOf d) (buildFields now d))
      else s g := by
  unfold saveOne storeSet
  cases hs : s (gameIdOf d) <;> simp [hs]

theorem save_fst_foldl (now : String) (l : List BettingData) :
    ∀ (s : BetStore) (n : Nat),
      (l.foldl (fun acc d => (saveOne now acc.1 d, acc.2 + 1)) (s, n)).1 =
        l.foldl (saveOne now) s := by
  induction l with
  | nil => intro s n; rfl
  | cons d l ih => intro s n; exact ih (saveOne now s d) (n + 1)

theorem save_snd_foldl (now : String) (l : List BettingData) :
    ∀ (s : BetStore) (n : Nat),
      (l.foldl (fun acc d => (saveOne now acc.1 d, acc.2 + 1)) (s, n)).2 = n + l.length := by
  induction l with
  | nil => intro s n; rfl
  | cons d l ih =>
    intro s n
    calc (List.foldl _ (saveOne now s d, n + 1) l).2 = (n + 1) + l.length :=
          ih (saveOne now s d) (n + 1)
      _ = n + (d :: l).length := by simp [List.length_cons]; omega

theorem save_betting_data_fst (now : String) (s : BetStore) (l : List BettingData) :
    (save_betting_data now s l).1 = l.foldl (saveOne now) s :=
  save_fst_foldl now l s 0

theorem save_single_existing (now : String) (s : BetStore) (d : BettingData)
    (r : BettingRow) (h : s (gameIdOf d) = some r) :
    (save_betting_data now s [d]).1 (gameIdOf d) =
      some (applyFields (buildFields now d) r) := by
  rw [save_betting_data_fst]
  show saveOne now s d (gameIdOf d) = _
  rw [saveOne_eval, if_pos rfl, h]

theorem applyFields_lf_le (F : MergeFields) (r : BettingRow) :
    r.lines_finalized ≤ (applyFields F r).lines_finalized := by
  simp only [applyFields]
  cases F.lines_finalized with
  | some v => exact le_max_left _ _
  | none => exact le_refl _

theorem saveOne_mono_lf (now : String) (s : BetStore) (d : BettingData) (g : String)
    (r : BettingRow) (h : s g = some r) :
    ∃ r', saveOne now s d g = some r' ∧ r.lines_finalized ≤ r'.lines_finalized := by
  by_cases hg : g = gameIdOf d
  · subst hg
    rw [saveOne_eval, if_pos rfl, h]
    exact ⟨_, rfl, applyFields_lf_le _ _⟩
  · rw [saveOne_eval, if_neg hg]
    exact ⟨r, h, le_refl _⟩

theorem saveFold_mono_lf (now : String) (l : List BettingData) :
    ∀ (s : BetStore) (g : String) (r : BettingRow), s g = some r →
      ∃ r', (l.foldl (saveOne now) s) g = some r' ∧
        r.lines_finalized ≤ r'.lines_finalized := by
  induction l with
  | nil => intro s g r h; exact ⟨r, h, le_refl _⟩
  | cons d l ih =>
    intro s g r h
    obtain ⟨r1, h1, hle1⟩ := saveOne_mono_lf now s d g r h
    obtain ⟨r2, h2, hle2⟩ := ih (saveOne now s d) g r1 h1
    exact ⟨r2, h2, le_trans hle1 hle2⟩

theorem applyBatches_mono_lf (bs : List (String × List BettingData)) :
    ∀ (s : BetStore) (g : String) (r : BettingRow), s g = some r →
      ∃ r', applyBatches bs s g = some r' ∧
        r.lines_finalized ≤ r'.lines_finalized := by
  induction bs with
  | nil => intro s g r h; exact ⟨r, h, le_refl _⟩
  | cons b bs ih =>
    intro s g r h
    have h1 : (save_betting_data b.1 s b.2).1 g =
        (b.2.foldl (saveOne b.1) s) g := by rw [save_betting_data_fst]
    obtain ⟨r1, hr1, hle1⟩ := saveFold_mono_lf b.1 b.2 s g r h
    obtain ⟨r2, hr2, hle2⟩ := ih ((save_betting_data b.1 s b.2).1) g r1 (h1 ▸ hr1)
    exact ⟨r2, hr2, le_trans hle1 hle2⟩

theorem applyFields_applyFields (F : MergeFields) (r : BettingRow) :
    applyFields F (applyFields F r) = applyFields F r := by
  cases hF : F.lines_finalized <;>
    simp [applyFields, hF, coalesce_idem, max_assoc, max_self]

theorem applyFields_insertRow (now gid : String) (F : MergeFields) :
    applyFields F (insertRow now gid F) = insertRow now gid F := by
  cases hF : F.lines_finalized <;>
    simp [applyFields, insertRow, hF, coalesce_self, max_self]

theorem saveOne_idem (now : String) (s : BetStore) (d : BettingData) :
    saveOne now (saveOne now s d) d = saveOne now s d := by
  funext g
  by_cases hg : g = gameIdOf d
  · subst hg
    rw [saveOne_eval, if_pos rfl, saveOne_eval, if_pos rfl]
    cases hs : s (gameIdOf d) with
    | some r => simp [hs, applyFields_applyFields]
    | none => simp [hs, applyFields_insertRow]
  · rw [saveOne_eval, if_neg hg]

/-- Field-wise non-null preservation: every nullable column that is non-null
in `r` is still non-null in `r'`. -/
def NonNullLe (r r' : BettingRow) : Prop :=
  (r.espn_event_id.isSome = true → r'.espn_event_id.isSome = true) ∧
  (r.espn_opening_spread.isSome = true → r'.espn_opening_spread.isSome = true) ∧
  (r.espn_opening_spread_home_odds.isSome = true → r'.espn_opening_spread_home_odds.isSome = true) ∧
  (r.espn_opening_spread_away_odds.isSome = true → r'.espn_opening_spread_away_odds.isSome = true) ∧
  (r.espn_opening_total.isSome = true → r'.espn_opening_total.isSome = true) ∧
  (r.espn_opening_over_odds.isSome = true → r'.espn_opening_over_odds.isSome = true) ∧
  (r.espn_opening_under_odds.isSome = true → r'.espn_opening_under_odds.isSome = true) ∧
  (r.espn_opening_ml_home.isSome = true → r'.espn_opening_ml_home.isSome = true) ∧
  (r.espn_opening_ml_away.isSome = true → r'.espn_opening_ml_away.isSome = true) ∧
  (r.espn_current_spread.isSome = true → r'.espn_current_spread.isSome = true) ∧
  (r.espn_current_spread_home_odds.isSome = true → r'.espn_current_spread_home_odds.isSome = true) ∧
  (r.espn_current_spread_away_odds.isSome = true → r'.espn_current_spread_away_odds.isSome = true) ∧
  (r.espn_current_total.isSome = true → r'.espn_current_total.isSome = true) ∧
  (r.espn_current_over_odds.isSome = true → r'.espn_current_over_odds.isSome = true) ∧
  (r.espn_current_under_odds.isSome = true → r'.espn_current_under_odds.isSome = true) ∧
  (r.espn_current_ml_home.isSome = true → r'.espn_current_ml_home.isSome = true) ∧
  (r.espn_current_ml_away.isSome = true → r'.espn_current_ml_away.isSome = true) ∧
  (r.espn_closing_spread.isSome = true → r'.espn_closing_spread.isSome = true) ∧
  (r.espn_closing_spread_home_odds.isSome = true → r'.espn_closing_spread_home_odds.isSome = true) ∧
  (r.espn_closing_spread_away_odds.isSome = true → r'.espn_closing_spread_away_odds.isSome = true) ∧
  (r.espn_closing_total.isSome = true → r'.espn_closing_total.isSome = true) ∧
  (r.espn_closing_over_odds.isSome = true → r'.espn_closing_over_odds.isSome = true) ∧
  (r.espn_closing_under_odds.isSome = true → r'.espn_closing_under_odds.isSome = true) ∧
  (r.espn_closing_ml_home.isSome = true → r'.espn_closing_ml_home.isSome = true) ∧
  (r.espn_closing_ml_away.isSome = true → r'.espn_closing_ml_away.isSome = true) ∧
  (r.covers_closing_spread.isSome = true → r'.covers_closing_spread.isSome = true) ∧
  (r.covers_closing_total.isSome = true → r'.covers_closing_total.isSome = true) ∧
  (r.spread_result.isSome = true → r'.spread_result.isSome = true) ∧
  (r.ou_result.isSome = true → r'.ou_result.isSome = true)

/-- Field-wise no-op on null input: every nullable column whose incoming
value in `F` is null (or whose key is absent) keeps its stored value. -/
def UnchangedOnNone (F : MergeFields) (r r' : BettingRow) : Prop :=
  (F.espn_event_id = none → r'.espn_event_id = r.espn_event_id) ∧
  (F.espn_opening_spread = none → r'.espn_opening_spread = r.espn_opening_spread) ∧
  (F.espn_opening_spread_home_odds = none → r'.espn_opening_spread_home_odds = r.espn_opening_spread_home_odds) ∧
  (F.espn_opening_spread_away_odds = none → r'.espn_opening_spread_away_odds = r.espn_opening_spread_away_odds) ∧
  (F.espn_opening_total = none → r'.espn_opening_total = r.espn_opening_total) ∧
  (F.espn_opening_over_odds = none → r'.espn_opening_over_odds = r.espn_opening_over_odds) ∧
  (F.espn_opening_under_odds = none → r'.espn_opening_under_odds = r.espn_opening_under_odds) ∧
  (F.espn_opening_ml_home = none → r'.espn_opening_ml_home = r.espn_opening_ml_home) ∧
  (F.espn_opening_ml_away = none → r'.espn_opening_ml_away = r.espn_opening_ml_away) ∧
  (F.espn_current_spread = none → r'.espn_current_spread = r.espn_current_spread) ∧
  (F.espn_current_spread_home_odds = none → r'.espn_current_spread_home_odds = r.espn_current_spread_home_odds) ∧
  (F.espn_current_spread_away_odds = none → r'.espn_current_spread_away_odds = r.espn_current_spread_away_odds) ∧
  (F.espn_current_total = none → r'.espn_current_total = r.espn_current_total) ∧
  (F.espn_current_over_odds = none → r'.espn_current_over_odds = r.espn_current_over_odds) ∧
  (F.espn_current_under_odds = none → r'.espn_current_under_odds = r.espn_current_under_odds) ∧
  (F.espn_current_ml_home = none → r'.espn_current_ml_home = r.espn_current_ml_home) ∧
  (F.espn_current_ml_away = none → r'.espn_current_ml_away = r.espn_current_ml_away) ∧
  (F.espn_closing_spread = none → r'.espn_closing_spread = r.espn_closing_spread) ∧
  (F.espn_closing_spread_home_odds = none → r'.espn_closing_spread_home_odds = r.espn_closing_spread_home_odds) ∧
  (F.espn_closing_spread_away_odds = none → r'.espn_closing_spread_away_odds = r.espn_closing_spread_away_odds) ∧
  (F.espn_closing_total = none → r'.espn_closing_total = r.espn_closing_total) ∧
  (F.espn_closing_over_odds = none → r'.espn_closing_over_odds = r.espn_closing_over_odds) ∧
  (F.espn_closing_under_odds = none → r'.espn_closing_under_odds = r.espn_closing_under_odds) ∧
  (F.espn_closing_ml_home = none → r'.espn_closing_ml_home = r.espn_closing_ml_home) ∧
  (F.espn_closing_ml_away = none → r'.espn_closing_ml_away = r.espn_closing_ml_away) ∧
  (F.covers_closing_spread = none → r'.covers_closing_spread = r.covers_closing_spread) ∧
  (F.covers_closing_total = none → r'.covers_closing_total = r.covers_closing_total) ∧
  (F.spread_result = none → r'.spread_result = r.spread_result) ∧
  (F.ou_result = none → r'.ou_result = r.ou_result)

theorem applyFields_nonNullLe (F : MergeFields) (r : BettingRow) :
    NonNullLe r (applyFields F r) :=
  ⟨fun h => coalesce_isSome _ _ h, fun h => coalesce_isSome _ _ h,
   fun h => coalesce_isSome _ _ h, fun h => coalesce_isSome _ _ h,
   fun h => coalesce_isSome _ _ h, fun h => coalesce_isSome _ _ h,
   fun h => coalesce_isSome _ _ h, fun h => coalesce_isSome _ _ h,
   fun h => coalesce_isSome _ _ h, fun h => coalesce_isSome _ _ h,
   fun h => coalesce_isSome _ _ h, fun h => coalesce_isSome _ _ h,
   fun h => coalesce_isSome _ _ h, fun h => coalesce_isSome _ _ h,
   fun h => coalesce_isSome _ _ h, fun h => coalesce_isSome _ _ h,
   fun h => coalesce_isSome _ _ h, fun h => coalesce_isSome _ _ h,
   fun h => coalesce_isSome _ _ h, fun h => coalesce_isSome _ _ h,
   fun h => coalesce_isSome _ _ h, fun h => coalesce_isSome _ _ h,
   fun h => coalesce_isSome _ _ h, fun h => coalesce_isSome _ _ h,
   fun h => coalesce_isSome _ _ h, fun h => coalesce_isSome _ _ h,
   fun h => coalesce_isSome _ _ h, fun h => coalesce_isSome _ _ h,
   fun h => coalesce_isSome _ _ h⟩

theorem applyFields_unchangedOnNone (F : MergeFields) (r : BettingRow) :
    UnchangedOnNone F r (applyFields F r) :=
  ⟨fun h => coalesce_of_none _ _ h, fun h => coalesce_of_none _ _ h,
   fun h => coalesce_of_none _ _ h, fun h => coalesce_of_none _ _ h,
   fun h => coalesce_of_none _ _ h, fun h => coalesce_of_none _ _ h,
   fun h => coalesce_of_none _ _ h, fun h => coalesce_of_none _ _ h,
   fun h => coalesce_of_none _ _ h, fun h => coalesce_of_none _ _ h,
   fun h => coalesce_of_none _ _ h, fun h => coalesce_of_none _ _ h,
   fun h => coalesce_of_none _ _ h, fun h => coalesce_of_none _ _ h,
   fun h => coalesce_of_none _ _ h, fun h => coalesce_of_none _ _ h,
   fun h => coalesce_of_none _ _ h, fun h => coalesce_of_none _ _ h,
   fun h => coalesce_of_none _ _ h, fun h => coalesce_of_none _ _ h,
   fun h => coalesce_of_none _ _ h, fun h => coalesce_of_none _ _ h,
   fun h => coalesce_of_none _ _ h, fun h => coalesce_of_none _ _ h,
   fun h => coalesce_of_none _ _ h, fun h => coalesce_of_none _ _ h,
   fun h => coalesce_of_none _ _ h, fun h => coalesce_of_none _ _ h,
   fun h => coalesce_of_none _ _ h⟩

/-- Claim C3: for every existing record and every sequence of merges applied
through `save_betting_data` (ESPN, Covers, or placeholder updates, with any
`lines_finalized` value in the update), the stored `lines_finalized` never
decreases: it only ever transitions from 0 to 1 and never from 1 back
to 0. -/
theorem c3_finalization_monotonic (bs : List (String × List BettingData))
    (s : BetStore) (g : String) (r r' : BettingRow)
    (h : s g = some r) (h' : applyBatches bs s g = some r') :
    r.lines_finalized ≤ r'.lines_finalized := by
  obtain ⟨r2, h2, hle⟩ := applyBatches_mono_lf bs s g r h
  rw [h'] at h2
  cases h2
  exact hle

def c3Row : BettingRow :=
  { game_id := "g1", lines_finalized := 1, espn_closing_spread := some (-5),
    created_at := "T0", updated_at := "T0" }

def c3Update : BettingData :=
  .covers { game_id := "g1", covers_closing_spread := some (-4),
            covers_closing_total := some 221, lines_finalized := some 1 }

def c3Store : BetStore :=
  fun g => if g = "g1" then some c3Row else none

theorem c3_finalization_monotonic_witness :
    c3Row.lines_finalized ≤
      (applyFields (buildFields "T1" c3Update) c3Row).lines_finalized :=
  c3_finalization_monotonic [("T1", [c3Update])] c3Store "g1" c3Row
    (applyFields (buildFields "T1" c3Update) c3Row) (by rfl) (by rfl)

/-- Claim C4: for every field of an existing stored record and every later
merge from any tier through `save_betting_data`, a field currently holding
a non-null value is never overwritten with null, and an incoming null
(absent) value for a field leaves the stored value unchanged. -/
theorem c4_non_null_fill (now : String) (s : BetStore) (d : BettingData)
    (r : BettingRow) (h : s (gameIdOf d) = some r) :
    (save_betting_data now s [d]).1 (gameIdOf d) =
      some (applyFields (buildFields now d) r) ∧
    NonNullLe r (applyFields (buildFields now d) r) ∧
    UnchangedOnNone (buildFields now d) r (applyFields (buildFields now d) r) :=
  ⟨save_single_existing now s d r h, applyFields_nonNullLe _ _,
   applyFields_unchangedOnNone _ _⟩

def c4Row : BettingRow :=
  { game_id := "g1", espn_opening_spread := some (-3), espn_current_spread := some (-4),
    created_at := "T0", updated_at := "T0" }

def c4Update : BettingData :=
  .placeholder { game_id := "g1" }

def c4Store : BetStore :=
  fun g => if g = "g1" then some c4Row else none

theorem c4_non_null_fill_witness :
    (save_betting_data "T1" c4Store [c4Update]).1 (gameIdOf c4Update) =
      some (applyFields (buildFields "T1" c4Update) c4Row) ∧
    NonNullLe c4Row (applyFields (buildFields "T1" c4Update) c4Row) ∧
    UnchangedOnNone (buildFields "T1" c4Update) c4Row
      (applyFields (buildFields "T1" c4Update) c4Row) :=
  c4_non_null_fill "T1" c4Store c4Update c4Row (by rfl)

theorem buildFields_eq_except_updated (now now2 : String) (u : BettingData) :
    buildFields now2 u =
      { buildFields now u with updated_at := (buildFields now2 u).updated_at } := by
  cases u <;> rfl

theorem applyFields_applyFields_time (F : MergeFields) (ua : String) (r : BettingRow) :
    applyFields { F with updated_at := ua } (applyFields F r) =
      { applyFields F r with updated_at := ua } := by
  cases hF : F.lines_finalized <;>
    simp [applyFields, hF, coalesce_idem, max_assoc, max_self]

theorem applyFields_insertRow_time (F : MergeFields) (ua now gid : String) :
    applyFields { F with updated_at := ua } (insertRow now gid F) =
      { insertRow now gid F with updated_at := ua } := by
  cases hF : F.lines_finalized <;>
    simp [applyFields, insertRow, hF, coalesce_self, max_self]

/-- Claim C8: for every fetched update `u` and every initial store state,
calling `save_betting_data` with `[u]` twice in succession yields the same
stored record for `u`'s event as calling it once: at the same call time
`now` (the timestamp the Python code reads once per call) the whole store
is identical, and at a later call time `now2` the record differs from the
once-saved record only in the `updated_at` audit stamp, while every other
key of the store is untouched. -/
theorem c8_idempotent (now now2 : String) (s : BetStore) (u : BettingData) :
    (save_betting_data now (save_betting_data now s [u]).1 [u]).1 =
      (save_betting_data now s [u]).1 ∧
    (save_betting_data now2 (save_betting_data now s [u]).1 [u]).1 (gameIdOf u) =
      ((save_betting_data now s [u]).1 (gameIdOf u)).map
        (fun row => { row with updated_at := (buildFields now2 u).updated_at }) ∧
    ∀ g, g ≠ gameIdOf u →
      (save_betting_data now2 (save_betting_data now s [u]).1 [u]).1 g =
        (save_betting_data now s [u]).1 g := by
  refine ⟨saveOne_idem now s u, ?_, ?_⟩
  · show saveOne now2 (saveOne now s u) u (gameIdOf u) =
      (saveOne now s u (gameIdOf u)).map _
    rw [saveOne_eval, if_pos rfl, saveOne_eval, if_pos rfl]
    cases hs : s (gameIdOf u) with
    | some r =>
      simp only [hs, Option.map_some']
      rw [buildFields_eq_except_updated now now2 u,
        applyFields_applyFields_time (buildFields now u)
          (buildFields now2 u).updated_at r]
    | none =>
      simp only [hs, Option.map_some']
      rw [buildFields_eq_except_updated now now2 u,
        applyFields_insertRow_time (buildFields now u)
          (buildFields now2 u).updated_at now (gameIdOf u)]
  · intro g hg
    show saveOne now2 (saveOne now s u) u g = saveOne now s u g
    rw [saveOne_eval, if_neg hg]

/-- Claim C10: `save_betting_data` returns exactly the number of recognized
entries (every entry is recognized, since the placeholder format is the
complement of the ESPN and Covers formats and the unknown-format branch is
unreachable), counting placeholders and no-op coalesce writes; an empty
list returns 0 and leaves the store untouched. -/
theorem c10_saved_count (now : String) (s : BetStore) (l : List BettingData) :
    (save_betting_data now s l).2 = l.length ∧
      save_betting_data now s [] = (s, 0) :=
  ⟨by have h := save_snd_foldl now l s 0; simpa using h, rfl⟩

def c1Row : BettingRow :=
  { game_id := "g1", espn_event_id := some "e1", espn_closing_spread := some (-5),
    espn_closing_total := some 220, lines_finalized := 1,
    created_at := "T0", updated_at := "T0" }

def c1Store : BetStore :=
  fun g => if g = "g1" then some c1Row else none

def c1Update : BettingData :=
  .espn { game_id := "g1", espn_event_id := "e1", game_status := 3,
          current_or_closing := some { spread := some (-6) },
          lines_finalized := some 1 }

/-- Claim C1 is false on the code: a stored record holds the non-null
closing spread -5, a later ESPN completed-game merge through
`save_betting_data` carries the different non-null closing spread -6 for
the same field, and the stored value changes to -6 instead of staying -5
(`COALESCE(?, column)` lets the incoming non-null value win). -/
theorem c1_counterexample :
    c1Row.espn_closing_spread = some (-5) ∧
    ((save_betting_data "T1" c1Store [c1Update]).1 "g1").map
        (fun row => row.espn_closing_spread) = some (some (-6)) := by
  constructor
  · rfl
  · rfl

/-- Claim C1, amended: closing slots receive no write-once protection in
`save_betting_data`; like every other COALESCE-merged column, a non-null
incoming closing value overwrites the stored one, and only an incoming
null leaves the stored value unchanged (permanence of finalized closing
lines is enforced upstream by the cache gate, not by the merge). -/
theorem c1_closing_overwrite (now : String) (s : BetStore) (e : EspnData)
    (r : BettingRow) (g : LineGroup)
    (h : s e.game_id = some r) (hst : e.game_status = 3)
    (hcoc : e.current_or_closing = some g) :
    (save_betting_data now s [BettingData.espn e]).1 e.game_id =
      some (applyFields (buildFields now (BettingData.espn e)) r) ∧
    (applyFields (buildFields now (BettingData.espn e)) r).espn_closing_spread =
      (match g.spread with
       | some w => some w
       | none => r.espn_closing_spread) ∧
    ∀ (c : CoversData) (s2 : BetStore) (r2 : BettingRow), s2 c.game_id = some r2 →
      (save_betting_data now s2 [BettingData.covers c]).1 c.game_id =
        some (applyFields (buildFields now (BettingData.covers c)) r2) ∧
      (applyFields (buildFields now (BettingData.covers c)) r2).covers_closing_spread =
        (match c.covers_closing_spread with
         | some w => some w
         | none => r2.covers_closing_spread) := by
  have hc : isCompleted e = true := by simp [isCompleted, hst]
  refine ⟨save_single_existing now s (BettingData.espn e) r h, ?_, ?_⟩
  · show coalesce (espnClosingField e (fun gr => gr.spread)) r.espn_closing_spread = _
    simp only [espnClosingField, hc, if_true, hcoc, Option.some_bind]
    cases g.spread <;> rfl
  · intro c s2 r2 h2
    refine ⟨save_single_existing now s2 (BettingData.covers c) r2 h2, ?_⟩
    show coalesce c.covers_closing_spread r2.covers_closing_spread = _
    cases c.covers_closing_spread <;> rfl

theorem c1_closing_overwrite_witness :
    (save_betting_data "T1" c1Store [c1Update]).1 "g1" =
      some (applyFields (buildFields "T1" c1Update)
        c1Row) ∧
    (applyFields (buildFields "T1" c1Update) c1Row).espn_closing_spread =
      some (-6) ∧
    ∀ (c : CoversData) (s2 : BetStore) (r2 : BettingRow), s2 c.game_id = some r2 →
      (save_betting_data "T1" s2 [BettingData.covers c]).1 c.game_id =
        some (applyFields (buildFields "T1" (BettingData.covers c)) r2) ∧
      (applyFields (buildFields "T1" (BettingData.covers c)) r2).covers_closing_spread =
        (match c.covers_closing_spread with
         | some w => some w
         | none => r2.covers_closing_spread) :=
  c1_closing_overwrite "T1" c1Store
    { game_id := "g1", espn_event_id := "e1", game_status := 3,
      current_or_closing := some { spread := some (-6) }, lines_finalized := some 1 }
    c1Row { spread := some (-6) } (by rfl) (by rfl) (by rfl)

/-- Claim C7: for every update merged by `save_betting_data` into an
existing row, fields under `opening` always target the ESPN opening slots;
fields under `current_or_closing` target the ESPN current slots when the
update's game status is not Completed (3) at fetch time and the ESPN
closing slots when it is, leaving the other group untouched; and a Covers
update targets only the covers closing slots, never any ESPN opening,
current, or closing slot. -/
theorem c7_phase_routing (now : String) (s : BetStore) (e : EspnData)
    (r : BettingRow) (h : s e.game_id = some r) :
    (save_betting_data now s [BettingData.espn e]).1 e.game_id =
      some (applyFields (buildFields now (BettingData.espn e)) r) ∧
    (∀ g, e.opening = some g →
      (applyFields (buildFields now (BettingData.espn e)) r).espn_opening_spread =
        coalesce g.spread r.espn_opening_spread ∧
      (applyFields (buildFields now (BettingData.espn e)) r).espn_opening_spread_home_odds =
        coalesce g.spread_home_odds r.espn_opening_spread_home_odds ∧
      (applyFields (buildFields now (BettingData.espn e)) r).espn_opening_spread_away_odds =
        coalesce g.spread_away_odds r.espn_opening_spread_away_odds ∧
      (applyFields (buildFields now (BettingData.espn e)) r).espn_opening_total =
        coalesce g.total r.espn_opening_total ∧
      (applyFields (buildFields now (BettingData.espn e)) r).espn_opening_over_odds =
        coalesce g.over_odds r.espn_opening_over_odds ∧
      (applyFields (buildFields now (BettingData.espn e)) r).espn_opening_under_odds =
        coalesce g.under_odds r.espn_opening_under_odds ∧
      (applyFields (buildFields now (BettingData.espn e)) r).espn_opening_ml_home =
        coalesce g.ml_home r.espn_opening_ml_home ∧
      (applyFields (buildFields now (BettingData.espn e)) r).espn_opening_ml_away =
        coalesce g.ml_away r.espn_opening_ml_away) ∧
    (∀ g, e.current_or_closing = some g → e.game_status ≠ 3 →
      ((applyFields (buildFields now (BettingData.espn e)) r).espn_current_spread =
        coalesce g.spread r.espn_current_spread ∧
      (applyFields (buildFields now (BettingData.espn e)) r).espn_current_spread_home_odds =
        coalesce g.spread_home_odds r.espn_current_spread_home_odds ∧
      (applyFields (buildFields now (BettingData.espn e)) r).espn_current_spread_away_odds =
        coalesce g.spread_away_odds r.espn_current_spread_away_odds ∧
      (applyFields (buildFields now (BettingData.espn e)) r).espn_current_total =
        coalesce g.total r.espn_current_total ∧
      (applyFields (buildFields now (BettingData.espn e)) r).espn_current_over_odds =
        coalesce g.over_odds r.espn_current_over_odds ∧
      (applyFields (buildFields now (BettingData.espn e)) r).espn_current_under_odds =
        coalesce g.under_odds r.espn_current_under_odds ∧
      (applyFields (buildFields now (BettingData.espn e)) r).espn_current_ml_home =
        coalesce g.ml_home r.espn_current_ml_home ∧
      (applyFields (buildFields now (BettingData.espn e)) r).espn_current_ml_away =
        coalesce g.ml_away r.espn_current_ml_away) ∧
      ((applyFields (buildFields now (BettingData.espn e)) r).espn_closing_spread =
        r.espn_closing_spread ∧
      (applyFields (buildFields now (BettingData.espn e)) r).espn_closing_spread_home_odds =
        r.espn_closing_spread_home_odds ∧
      (applyFields (buildFields now (BettingData.espn e)) r).espn_closing_spread_away_odds =
        r.espn_closing_spread_away_odds ∧
      (applyFields (buildFields now (BettingData.espn e)) r).espn_closing_total =
        r.espn_closing_total ∧
      (applyFields (buildFields now (BettingData.espn e)) r).espn_closing_over_odds =
        r.espn_closing_over_odds ∧
      (applyFields (buildFields now (BettingData.espn e)) r).espn_closing_under_odds =
        r.espn_closing_under_odds ∧
      (applyFields (buildFields now (BettingData.espn e)) r).espn_closing_ml_home =
        r.espn_closing_ml_home ∧
      (applyFields (buildFields now (BettingData.espn e)) r).espn_closing_ml_away =
        r.espn_closing_ml_away)) ∧
    (∀ g, e.current_or_closing = some g → e.game_status = 3 →
      ((applyFields (buildFields now (BettingData.espn e)) r).espn_closing_spread =
        coalesce g.spread r.espn_closing_spread ∧
      (applyFields (buildFields now (BettingData.espn e)) r).espn_closing_spread_home_odds =
        coalesce g.spread_home_odds r.espn_closing_spread_home_odds ∧
      (applyFields (buildFields now (BettingData.espn e)) r).espn_closing_spread_away_odds =
        coalesce g.spread_away_odds r.espn_closing_spread_away_odds ∧
      (applyFields (buildFields now (BettingData.espn e)) r).espn_closing_total =
        coalesce g.total r.espn_closing_total ∧
      (applyFields (buildFields now (BettingData.espn e)) r).espn_closing_over_odds =
        coalesce g.over_odds r.espn_closing_over_odds ∧
      (applyFields (buildFields now (BettingData.espn e)) r).espn_closing_under_odds =
        coalesce g.under_odds r.espn_closing_under_odds ∧
      (applyFields (buildFields now (BettingData.espn e)) r).espn_closing_ml_home =
        coalesce g.ml_home r.espn_closing_ml_home ∧
      (applyFields (buildFields now (BettingData.espn e)) r).espn_closing_ml_away =
        coalesce g.ml_away r.espn_closing_ml_away) ∧
      ((applyFields (buildFields now (BettingData.espn e)) r).espn_current_spread =
        r.espn_current_spread ∧
      (applyFields (buildFields now (BettingData.espn e)) r).espn_current_spread_home_odds =
        r.espn_current_spread_home_odds ∧
      (applyFields (buildFields now (BettingData.espn e)) r).espn_current_spread_away_odds =
        r.espn_current_spread_away_odds ∧
      (applyFields (buildFields now (BettingData.espn e)) r).espn_current_total =
        r.espn_current_total ∧
      (applyFields (buildFields now (BettingData.espn e)) r).espn_current_over_odds =
        r.espn_current_over_odds ∧
      (applyFields (buildFields now (BettingData.espn e)) r).espn_current_under_odds =
        r.espn_current_under_odds ∧
      (applyFields (buildFields now (BettingData.espn e)) r).espn_current_ml_home =
        r.espn_current_ml_home ∧
      (applyFields (buildFields now (BettingData.espn e)) r).espn_current_ml_away =
        r.espn_current_ml_away)) ∧
    (∀ (c : CoversData) (s2 : BetStore) (r2 : BettingRow), s2 c.game_id = some r2 →
      (save_betting_data now s2 [BettingData.covers c]).1 c.game_id =
        some (applyFields (buildFields now (BettingData.covers c)) r2) ∧
      (applyFields (buildFields now (BettingData.covers c)) r2).covers_closing_spread =
        coalesce c.covers_closing_spread r2.covers_closing_spread ∧
      (applyFields (buildFields now (BettingData.covers c)) r2).covers_closing_total =
        coalesce c.covers_closing_total r2.covers_closing_total ∧
      (applyFields (buildFields now (BettingData.covers c)) r2).espn_opening_spread =
        r2.espn_opening_spread ∧
      (applyFields (buildFields now (BettingData.covers c)) r2).espn_opening_total =
        r2.espn_opening_total ∧
      (applyFields (buildFields now (BettingData.covers c)) r2).espn_current_spread =
        r2.espn_current_spread ∧
      (applyFields (buildFields now (BettingData.covers c)) r2).espn_current_total =
        r2.espn_current_total ∧
      (applyFields (buildFields now (BettingData.covers c)) r2).espn_closing_spread =
        r2.espn_closing_spread ∧
      (applyFields (buildFields now (BettingData.covers c)) r2).espn_closing_total =
        r2.espn_closing_total ∧
      (applyFields (buildFields now (BettingData.covers c)) r2).espn_opening_ml_home =
        r2.espn_opening_ml_home ∧
      (applyFields (buildFields now (BettingData.covers c)) r2).espn_current_ml_home =
        r2.espn_current_ml_home ∧
      (applyFields (buildFields now (BettingData.covers c)) r2).espn_closing_ml_home =
        r2.espn_closing_ml_home ∧
      (applyFields (buildFields now (BettingData.covers c)) r2).espn_opening_ml_away =
        r2.espn_opening_ml_away ∧
      (applyFields (buildFields now (BettingData.covers c)) r2).espn_current_ml_away =
        r2.espn_current_ml_away ∧
      (applyFields (buildFields now (BettingData.covers c)) r2).espn_closing_ml_away =
        r2.espn_closing_ml_away ∧
      (applyFields (buildFields now (BettingData.covers c)) r2).espn_opening_spread_home_odds =
        r2.espn_opening_spread_home_odds ∧
      (applyFields (buildFields now (BettingData.covers c)) r2).espn_opening_spread_away_odds =
        r2.espn_opening_spread_away_odds ∧
      (applyFields (buildFields now (BettingData.covers c)) r2).espn_opening_over_odds =
        r2.espn_opening_over_odds ∧
      (applyFields (buildFields now (BettingData.covers c)) r2).espn_opening_under_odds =
        r2.espn_opening_under_odds ∧
      (applyFields (buildFields now (BettingData.covers c)) r2).espn_current_spread_home_odds =
        r2.espn_current_spread_home_odds ∧
      (applyFields (buildFields now (BettingData.covers c)) r2).espn_current_spread_away_odds =
        r2.espn_current_spread_away_odds ∧
      (applyFields (buildFields now (BettingData.covers c)) r2).espn_current_over_odds =
        r2.espn_current_over_odds ∧
      (applyFields (buildFields now (BettingData.covers c)) r2).espn_current_under_odds =
        r2.espn_current_under_odds ∧
      (applyFields (buildFields now (BettingData.covers c)) r2).espn_closing_spread_home_odds =
        r2.espn_closing_spread_home_odds ∧
      (applyFields (buildFields now (BettingData.covers c)) r2).espn_closing_spread_away_odds =
        r2.espn_closing_spread_away_odds ∧
      (applyFields (buildFields now (BettingData.covers c)) r2).espn_closing_over_odds =
        r2.espn_closing_over_odds ∧
      (applyFields (buildFields now (BettingData.covers c)) r2).espn_closing_under_odds =
        r2.espn_closing_under_odds) := by
  refine ⟨save_single_existing now s (BettingData.espn e) r h, ?_, ?_, ?_, ?_⟩
  · intro g hg
    simp [applyFields, buildFields, espnOpeningField, hg]
  · intro g hg hst
    have hc : isCompleted e = false := by simp [isCompleted, hst]
    simp [applyFields, buildFields, espnOpeningField, espnCurrentField,
      espnClosingField, hc, hg, coalesce_none]
  · intro g hg hst
    have hc : isCompleted e = true := by simp [isCompleted, hst]
    simp [applyFields, buildFields, espnOpeningField, espnCurrentField,
      espnClosingField, hc, hg, coalesce_none]
  · intro c s2 r2 h2
    refine ⟨save_single_existing now s2 (BettingData.covers c) r2 h2, ?_⟩
    simp [applyFields, buildFields, coalesce_none]

def c7Espn : EspnData :=
  { game_id := "g1", espn_event_id := "e1", game_status := 1,
    opening := some { spread := some (-3) },
    current_or_closing := some { spread := some (-9/2) },
    lines_finalized := some 0 }

def c7Row : BettingRow :=
  { game_id := "g1", created_at := "T0", updated_at := "T0" }

def c7Store : BetStore :=
  fun g => if g = "g1" then some c7Row else none

theorem c7_phase_routing_witness :
    (applyFields (buildFields "T1" (BettingData.espn c7Espn)) c7Row).espn_opening_spread =
      some (-3) ∧
    (applyFields (buildFields "T1" (BettingData.espn c7Espn)) c7Row).espn_current_spread =
      some (-9/2) ∧
    (applyFields (buildFields "T1" (BettingData.espn c7Espn)) c7Row).espn_closing_spread =
      none := by
  have H := c7_phase_routing "T1" c7Store c7Espn c7Row (by rfl)
  refine ⟨?_, ?_, ?_⟩
  · exact (H.2.1 { spread := some (-3) } rfl).1
  · exact ((H.2.2.1 { spread := some (-9/2) } rfl (by decide)).1).1
  · exact ((H.2.2.1 { spread := some (-9/2) } rfl (by decide)).2).1

/-- Claim C6: for every kickoff instant, event status, and current time,
`should_fetch_betting` returns `(false, "too_far_future")` when kickoff is
more than 2 days ahead of now; otherwise `(false, "too_old")` when the
event is Completed and kickoff is more than 7 days in the past; otherwise
`(true, "espn")` when the event is Live or Completed or kickoff is no more
than 7 days in the past; and `(false, "skip")` in all remaining cases, the
rules being evaluated in that order. -/
theorem c6_tier_selector (k n : Rat) (st : GameStatus) :
    should_fetch_betting k (statusCode st) n = tier_selector_spec k n st := by
  have h86 : (0 : Rat) < 86400 := by norm_num
  have hA : ((k - n) / 86400 > (FUTURE_CUTOFF_DAYS : Rat)) ↔ (k - n > 2 * 86400) := by
    rw [gt_iff_lt, gt_iff_lt, lt_div_iff₀ h86]
    norm_num [FUTURE_CUTOFF_DAYS]
  have hB : ((k - n) / 86400 < -(ESPN_LOOKBACK_DAYS : Rat)) ↔
      (k - n < -(7 * 86400 : Rat)) := by
    rw [div_lt_iff₀ h86]
    norm_num [ESPN_LOOKBACK_DAYS]
  have hC : ((k - n) / 86400 ≥ -(ESPN_LOOKBACK_DAYS : Rat)) ↔
      (k - n ≥ -(7 * 86400 : Rat)) := by
    rw [ge_iff_le, ge_iff_le, le_div_iff₀ h86]
    norm_num [ESPN_LOOKBACK_DAYS]
  have hst3 : (statusCode st = 3) ↔ (st = GameStatus.completed) := by
    cases st <;> decide
  have hst2 : (statusCode st = 2) ↔ (st = GameStatus.live) := by
    cases st <;> decide
  simp only [should_fetch_betting, tier_selector_spec, hA, hB, hC, hst3, hst2]

/-- Claim C5, amended: `_should_use_cache` returns false when there is no
existing record or its `updated_at` is absent or unparseable; it returns
true for every record with `lines_finalized = 1` and a non-null ESPN or
Covers closing spread, at every time; otherwise it returns true iff less
than the 1-hour refresh interval has elapsed since `updated_at` — all of
this uniformly regardless of the event status argument.  (The original
claim promises permanent caching for any non-null closing-phase field; the
code only consults the two closing spread columns.) -/
theorem c5_cache_gate (e : Option CacheRecord) (gs gs' : Int) (now : Rat) :
    _should_use_cache e gs now = cache_gate_spec e now ∧
    _should_use_cache e gs now = _should_use_cache e gs' now := by
  constructor
  · cases e with
    | none => rfl
    | some r =>
      cases hu : r.updated_at with
      | missing => simp [_should_use_cache, cache_gate_spec, hu]
      | unparseable => simp [_should_use_cache, cache_gate_spec, hu]
      | parsed t =>
        have harith : ((now - t) / 3600 < (CACHE_HOURS : Rat)) ↔ (now - t < 3600) := by
          rw [div_lt_iff₀ (by norm_num : (0:Rat) < 3600)]
          norm_num [CACHE_HOURS]
        simp only [_should_use_cache, cache_gate_spec, hu]
        by_cases h1 : r.lines_finalized = 1 <;>
          by_cases h2 : r.espn_closing_spread.isSome = true <;>
            by_cases h3 : r.covers_closing_spread.isSome = true <;>
              simp [h1, h2, h3, harith]
  · rfl

def c5Record : CacheRecord :=
  { updated_at := .parsed 0, lines_finalized := 1, espn_closing_total := some 220 }

/-- Claim C5 is false on the code: a record with `lines_finalized = 1`
whose only non-null closing-phase field is `espn_closing_total` is not
cached forever — two hours after `updated_at` the gate already orders a
refetch, because `_should_use_cache` only consults the two closing spread
columns. -/
theorem c5_counterexample :
    c5Record.lines_finalized = 1 ∧
    cacheHasClosingField c5Record = true ∧
    _should_use_cache (some c5Record) 3 7200 = false := by
  refine ⟨rfl, rfl, ?_⟩
  simp only [_should_use_cache, c5Record]
  norm_num [CACHE_HOURS]

def c9Ledger : CoversLedger :=
  fun d => if d = "2024-01-06" then some (0, 80000) else some (2, 0)

def c9Dates : List String :=
  ["2024-01-05", "2024-01-06", "2024-01-07"]

/-- Claim C9 is false on the code at the window boundary: a date whose last
attempt had zero matches exactly 6 hours ago (21600 seconds) is retained
by `_filter_failed_covers_dates` (the skip test is strict:
`last_attempt > now - 6 hours`), whereas retention iff the attempt is
`more than 6 hours ago` would filter it out. -/
theorem c9_counterexample :
    _filter_failed_covers_dates 21600 (fun _ => some (0, 0)) ["2024-01-05"] =
      ["2024-01-05"] ∧
    covers_date_retained_strict 21600 (fun _ => some (0, 0)) "2024-01-05" = false ∧
    ["2024-01-05"].filter (covers_date_retained_strict 21600 (fun _ => some (0, 0))) =
      [] := by
  refine ⟨?_, ?_, ?_⟩ <;> decide

/-- Claim C9, amended: given that recorded match counts are non-negative
(they are stored as list lengths), `_filter_failed_covers_dates` retains a
date iff it has no recorded prior attempt, or its last attempt had zero
matches at least 6 hours ago, or at least one match at least 24 hours ago;
every date inside its applicable skip window is filtered out and the
relative order of the retained dates is preserved (the result is the
order-preserving filter of the input).  (The original claim's strict
`more than 6/24 hours ago` fails at the exact window boundary.) -/
theorem c9_attempt_ledger (now : Int) (ledger : CoversLedger) (dates : List String)
    (h : ∀ d mc t, ledger d = some (mc, t) → 0 ≤ mc) :
    _filter_failed_covers_dates now ledger dates =
      dates.filter (covers_date_retained now ledger) ∧
    (_filter_failed_covers_dates now ledger dates).Sublist dates := by
  constructor
  · unfold _filter_failed_covers_dates
    apply List.filter_congr
    intro d _
    cases hl : ledger d with
    | none => simp [covers_date_retained, hl]
    | some p =>
      obtain ⟨mc, t⟩ := p
      have hmc : 0 ≤ mc := h d mc t hl
      simp only [covers_date_retained, hl]
      by_cases h1 : mc > 0
      · rw [if_pos h1]
        by_cases h2 : t > now - 24 * 3600
        · rw [if_pos h2]
          apply Eq.symm
          simp
          omega
        · rw [if_neg h2]
          apply Eq.symm
          simp
          omega
      · have hmc0 : mc = 0 := by omega
        rw [if_neg h1, if_pos hmc0]
        by_cases h2 : t > now - 6 * 3600
        · rw [if_pos h2]
          apply Eq.symm
          simp
          omega
        · rw [if_neg h2]
          apply Eq.symm
          simp
          omega
  · exact List.filter_sublist dates

theorem c9_attempt_ledger_witness :
    _filter_failed_covers_dates 90000 c9Ledger c9Dates =
      c9Dates.filter (covers_date_retained 90000 c9Ledger) ∧
    (_filter_failed_covers_dates 90000 c9Ledger c9Dates).Sublist c9Dates :=
  c9_attempt_ledger 90000 c9Ledger c9Dates
    (by
      intro d mc t hd
      simp only [c9Ledger] at hd
      split at hd <;>
        (injection hd with h; injection h with h1 h2; omega))

/-- At least one closing-phase spread or total column of the row is
non-null (the condition the original claim C2 requires). -/
def hasClosingSpreadOrTotal (r : BettingRow) : Bool :=
  r.espn_closing_spread.isSome || r.espn_closing_total.isSome ||
  r.covers_closing_spread.isSome || r.covers_closing_total.isSome

/-- At least one closing-phase column of any kind (spread, total, odds, or
moneyline) is non-null. -/
def hasClosingField (r : BettingRow) : Bool :=
  hasClosingSpreadOrTotal r ||
  r.espn_closing_spread_home_odds.isSome || r.espn_closing_spread_away_odds.isSome ||
  r.espn_closing_over_odds.isSome || r.espn_closing_under_odds.isSome ||
  r.espn_closing_ml_home.isSome || r.espn_closing_ml_away.isSome

theorem coalesce_isSome_left {α : Type} (v old : Option α) (h : v.isSome = true) :
    (coalesce v old).isSome = true := by
  cases v with
  | some x => rfl
  | none => exact absurd h (by simp)

theorem extract_group_src (inp : ExtractInput) (g : LineGroup)
    (h : _extract_espn_lines inp = some g) :
    g.spread = inp.home_spread_line ∧ g.total = inp.over_line ∧
    (inp.home_spread_line.isSome = true ∨ inp.over_line.isSome = true ∨
     inp.home_ml_odds.isPresent = true ∨ inp.away_ml_odds.isPresent = true) := by
  unfold _extract_espn_lines at h
  by_cases ha : extractHasAny inp = true
  · rw [if_pos ha] at h
    injection h with h
    subst h
    refine ⟨rfl, rfl, ?_⟩
    simp only [extractHasAny, Bool.or_eq_true] at ha
    rcases ha with ((h1 | h2) | h3) | h4
    · exact Or.inl h1
    · exact Or.inr (Or.inl h2)
    · exact Or.inr (Or.inr (Or.inl h3))
    · exact Or.inr (Or.inr (Or.inr h4))
  · rw [if_neg ha] at h
    exact Option.noConfusion h

theorem fetch_some_elim (oc cc : ExtractInput) (el : EspnLines)
    (h : fetch_espn_betting_data oc cc = some el) :
    el.opening = _extract_espn_lines oc ∧
    el.current_or_closing = _extract_espn_lines cc := by
  simp only [fetch_espn_betting_data] at h
  split at h
  · injection h with h
    subst h
    exact ⟨rfl, rfl⟩
  · exact Option.noConfusion h

theorem build_espn_lf_one (gid eid : String) (status : Int) (el : EspnLines)
    (h : (build_espn_betting_result gid eid status el).lines_finalized = some 1) :
    status = 3 ∧ el.current_or_closing.isSome = true := by
  simp only [build_espn_betting_result] at h
  injection h with h
  by_cases hc : status = 3 ∧ el.current_or_closing.isSome = true
  · exact hc
  · rw [if_neg hc] at h
    exact absurd h (by decide)

theorem espnClosingField_completed {α : Type} (e : EspnData) (f : LineGroup → Option α)
    (g : LineGroup) (hC : isCompleted e = true) (hcoc : e.current_or_closing = some g) :
    espnClosingField e f = f g := by
  simp [espnClosingField, hC, hcoc]

/-- Claim C2, amended: whenever `fetch_betting_for_game` (ESPN) sets
`lines_finalized` to 1, the update's event status is Completed and a
`current_or_closing` group is present; such a group exists iff the feed
carried a home spread line, an over line, or a present — possibly
unparseable — raw moneyline odds value, and when it carries a spread
(resp. total) line the resulting record holds a non-null closing spread
(resp. total) on both the UPDATE and the INSERT path.  A group whose only
content is moneyline keys may convert entirely to nulls (`_convert_odds`
returns None for an unparseable value), so a Completed game can be
finalized with no non-null closing-phase field at all.  Whenever
`_fetch_covers_batch` (Covers) sets `lines_finalized` to 1, the resulting
record holds a non-null Covers closing spread.  An ESPN update whose
status is not Completed, or a Covers update carrying no closing spread,
leaves a non-negative stored `lines_finalized` unchanged. -/
theorem c2_finalization_precondition (oc cc : ExtractInput) (gid eid : String)
    (status : Int) (el : EspnLines) (now : String) (r : BettingRow)
    (hf : fetch_espn_betting_data oc cc = some el) :
    ((build_espn_betting_result gid eid status el).lines_finalized = some 1 →
      status = 3 ∧ el.current_or_closing.isSome = true) ∧
    (∀ g, el.current_or_closing = some g →
      g.spread = cc.home_spread_line ∧ g.total = cc.over_line ∧
      (cc.home_spread_line.isSome = true ∨ cc.over_line.isSome = true ∨
       cc.home_ml_odds.isPresent = true ∨ cc.away_ml_odds.isPresent = true)) ∧
    (∀ g, el.current_or_closing = some g → status = 3 →
      (g.spread.isSome = true →
        (applyFields
          (buildFields now (BettingData.espn (build_espn_betting_result gid eid status el))) r).espn_closing_spread.isSome = true ∧
        (insertRow now gid
          (buildFields now (BettingData.espn (build_espn_betting_result gid eid status el)))).espn_closing_spread.isSome = true) ∧
      (g.total.isSome = true →
        (applyFields
          (buildFields now (BettingData.espn (build_espn_betting_result gid eid status el))) r).espn_closing_total.isSome = true ∧
        (insertRow now gid
          (buildFields now (BettingData.espn (build_espn_betting_result gid eid status el)))).espn_closing_total.isSome = true)) ∧
    (status ≠ 3 → 0 ≤ r.lines_finalized →
      (applyFields
        (buildFields now (BettingData.espn (build_espn_betting_result gid eid status el))) r).lines_finalized =
        r.lines_finalized) ∧
    (∀ (gid2 : String) (sp tot : Option Rat) (sr ores : Option String) (r2 : BettingRow),
      ((build_covers_betting_data gid2 sp tot sr ores).lines_finalized = some 1 →
        (applyFields
          (buildFields now (BettingData.covers (build_covers_betting_data gid2 sp tot sr ores))) r2).covers_closing_spread.isSome = true ∧
        hasClosingField (applyFields
          (buildFields now (BettingData.covers (build_covers_betting_data gid2 sp tot sr ores))) r2) = true) ∧
      (sp = none → 0 ≤ r2.lines_finalized →
        (applyFields
          (buildFields now (BettingData.covers (build_covers_betting_data gid2 sp tot sr ores))) r2).lines_finalized =
          r2.lines_finalized)) := by
  refine ⟨build_espn_lf_one gid eid status el, ?_, ?_, ?_, ?_⟩
  · intro g hg
    exact extract_group_src cc g
      (by rw [← (fetch_some_elim oc cc el hf).2]; exact hg)
  · intro g hg hst
    have hC : isCompleted (build_espn_betting_result gid eid status el) = true := by
      simp [isCompleted, build_espn_betting_result, hst]
    have hcoc : (build_espn_betting_result gid eid status el).current_or_closing = some g := hg
    constructor
    · intro hs
      constructor
      · show (coalesce (espnClosingField (build_espn_betting_result gid eid status el)
          (fun gr => gr.spread)) r.espn_closing_spread).isSome = true
        rw [espnClosingField_completed _ _ g hC hcoc]
        exact coalesce_isSome_left _ _ hs
      · show (espnClosingField (build_espn_betting_result gid eid status el)
          (fun gr => gr.spread)).isSome = true
        rw [espnClosingField_completed _ _ g hC hcoc]
        exact hs
    · intro ht
      constructor
      · show (coalesce (espnClosingField (build_espn_betting_result gid eid status el)
          (fun gr => gr.total)) r.espn_closing_total).isSome = true
        rw [espnClosingField_completed _ _ g hC hcoc]
        exact coalesce_isSome_left _ _ ht
      · show (espnClosingField (build_espn_betting_result gid eid status el)
          (fun gr => gr.total)).isSome = true
        rw [espnClosingField_completed _ _ g hC hcoc]
        exact ht
  · intro hst h0
    show max r.lines_finalized
      (if status = 3 ∧ el.current_or_closing.isSome = true then (1:Int) else 0) =
        r.lines_finalized
    rw [if_neg (fun hc => hst hc.1)]
    exact max_eq_left h0
  · intro gid2 sp tot sr ores r2
    constructor
    · intro hlf
      have hsp : sp.isSome = true := by
        by_contra hs
        simp only [build_covers_betting_data] at hlf
        injection hlf with h
        rw [if_neg hs] at h
        exact absurd h (by decide)
      have h1 : (applyFields
          (buildFields now (BettingData.covers (build_covers_betting_data gid2 sp tot sr ores))) r2).covers_closing_spread.isSome = true := by
        show (coalesce sp r2.covers_closing_spread).isSome = true
        exact coalesce_isSome_left _ _ hsp
      exact ⟨h1, by simp [hasClosingField, hasClosingSpreadOrTotal, h1]⟩
    · intro hsp h0
      subst hsp
      show max r2.lines_finalized 0 = r2.lines_finalized
      exact max_eq_left h0

def c2CloseInp : ExtractInput := { home_ml_odds := RawOdds.num (-110) }

def c2Lines : EspnLines :=
  { opening := none,
    current_or_closing := some { ml_home := some (-110) } }

def c2BadInp : ExtractInput := { home_ml_odds := RawOdds.unparseable }

def c2BadLines : EspnLines :=
  { opening := none, current_or_closing := some {} }

/-- Claim C2 is false on the code, twice over.  First, ESPN can return a
`current_or_closing` group containing only a numeric moneyline; for a
Completed game `fetch_betting_for_game` still sets `lines_finalized = 1`
and the record `save_betting_data` stores is finalized with no
closing-phase spread and no closing-phase total.  Second, a raw moneyline
odds value that is present but unparseable (the ValueError path of
`_convert_odds`) yields a truthy group whose every converted value is
null, so the stored record is finalized with no non-null closing-phase
field of any kind. -/
theorem c2_counterexample :
    (fetch_espn_betting_data {} c2CloseInp = some c2Lines ∧
     (build_espn_betting_result "g1" "e1" 3 c2Lines).lines_finalized = some 1 ∧
     ((save_betting_data "T1" emptyStore
         [BettingData.espn (build_espn_betting_result "g1" "e1" 3 c2Lines)]).1 "g1").map
       hasClosingSpreadOrTotal = some false ∧
     ((save_betting_data "T1" emptyStore
         [BettingData.espn (build_espn_betting_result "g1" "e1" 3 c2Lines)]).1 "g1").map
       (fun row => row.lines_finalized) = some 1) ∧
    (fetch_espn_betting_data {} c2BadInp = some c2BadLines ∧
     (build_espn_betting_result "g2" "e2" 3 c2BadLines).lines_finalized = some 1 ∧
     ((save_betting_data "T1" emptyStore
         [BettingData.espn (build_espn_betting_result "g2" "e2" 3 c2BadLines)]).1 "g2").map
       hasClosingField = some false ∧
     ((save_betting_data "T1" emptyStore
         [BettingData.espn (build_espn_betting_result "g2" "e2" 3 c2BadLines)]).1 "g2").map
       (fun row => row.lines_finalized) = some 1) := by
  refine ⟨⟨by decide, by decide, by rfl, by rfl⟩, ⟨by decide, by decide, by rfl, by rfl⟩⟩

def c2wClose : ExtractInput :=
  { home_spread_line := some (-5), home_spread_odds := RawOdds.num (-110),
    away_spread_odds := RawOdds.num (-110), over_line := some 221,
    over_odds := RawOdds.num (-110), under_odds := RawOdds.num (-110) }

def c2wLines : EspnLines :=
  { opening := none,
    current_or_closing := some
      { spread := some (-5), spread_home_odds := some (-110),
        spread_away_odds := some (-110), total := some 221,
        over_odds := some (-110), under_odds := some (-110) } }

def c2wRow : BettingRow :=
  { game_id := "g1", created_at := "T0", updated_at := "T0" }

theorem c2_finalization_precondition_witness :
    (build_espn_betting_result "g1" "e1" 3 c2wLines).lines_finalized = some 1 ∧
    (applyFields
      (buildFields "T1" (BettingData.espn (build_espn_betting_result "g1" "e1" 3 c2wLines)))
      c2wRow).espn_closing_spread.isSome = true ∧
    (applyFields
      (buildFields "T1" (BettingData.espn (build_espn_betting_result "g1" "e1" 3 c2wLines)))
      c2wRow).espn_closing_total.isSome = true := by
  have H := c2_finalization_precondition {} c2wClose "g1" "e1" 3 c2wLines "T1" c2wRow
    (by decide)
  refine ⟨by decide, ?_, ?_⟩
  · exact ((H.2.2.1
      { spread := some (-5), spread_home_odds := some (-110),
        spread_away_odds := some (-110), total := some 221,
        over_odds := some (-110), under_odds := some (-110) } rfl rfl).1 (by decide)).1
  · exact ((H.2.2.1
      { spread := some (-5), spread_home_odds := some (-110),
        spread_away_odds := some (-110), total := some 221,
        over_odds := some (-110), under_odds := some (-110) } rfl rfl).2 (by decide)).1
